import Mathlib

/-!
Shallow embedding of the remix assembly pipeline:
`src/server/tts_processor.py` and `src/server/video_processor.py`.

Python strings that are manipulated character-wise (the spoken text, uuid
hex strings) are modelled as `List Char`; file-system paths that are only
concatenated are modelled as `String`.  External effects (the Fish.audio
service, ffmpeg/ffprobe subprocesses, the file system) are modelled by
explicit environment records whose fields give the outcome of each
external call; each embedded function is total over such environments,
mirroring the fact that the Python functions catch all exceptions at the
modelled boundaries.
-/

namespace Remix

/-! ## tts_processor.py -/

/-- The `FISH_VOICE_MAPPING` dict: character to Fish.audio voice-model id
(`tts_processor.py` lines 36-41); `.get` returns `none` for other keys. -/
def FISH_VOICE_MAPPING : String → Option String := fun c =>
  if c = "trump" then some "e58b0d7efca34eb38d5c4985e378abcb"
  else if c = "zelensky" then some "6be22288f35f4e9b964bdbeb099baee1"
  else if c = "vance" then some "86d3aee7cd9b4aab8cd8e54c3d35492b"
  else none

/-- The three-character ellipsis marker appended on truncation. -/
def ellipsis : List Char := ['.', '.', '.']

/-- Lines 68-72: `if len(text) > 200: text = text[:197] + "..."`. -/
def truncate200 (text : List Char) : List Char :=
  if 200 < text.length then text.take 197 ++ ellipsis else text

/-- Outcome of one remote synthesis attempt (one iteration of the retry
loop): either the SDK call raises, or it streams a file of some size. -/
inductive AttemptOutcome
  | raiseErr
  | produce (fileSize : Nat)
deriving DecidableEq

/-- Environment for `generate_tts`: whether an API key is available
(argument or `FISH_AUDIO_API_KEY`), whether the Fish SDK imported, the
outcome of the i-th remote attempt, and the dash-stripped uuid4 hex drawn
for the i-th filename. -/
structure TTSEnv where
  apiKeyPresent : Bool
  sdkAvailable : Bool
  outcome : Nat → AttemptOutcome
  uuid : Nat → List Char

/-- Path string returned for a generated voice file:
`f"/voices/{character}_{file_id}.mp3"`. -/
def voicesPath (character : String) (fileId : List Char) : String :=
  "/voices/" ++ character ++ "_" ++ fileId.asString ++ ".mp3"

/-- Lines 120-121: the plausibility check rejecting a suspiciously large
file for a short text: `file_size > 200000 and len(text) < 100`. -/
def plausibilityFails (textLen fileSize : Nat) : Bool :=
  200000 < fileSize && textLen < 100

/-- Result of `generate_tts`: either the value of a `generate_mock_tts`
call with the given arguments, or the remote path string returned after a
successful attempt. -/
inductive GenResult
  | mock (character : String) (text : List Char)
  | remote (attempt : Nat) (path : String)
deriving DecidableEq

/-- An attempt fails when the SDK call raises or the plausibility check
rejects the produced file. -/
def attemptFails (textLen : Nat) : AttemptOutcome → Bool
  | .raiseErr => true
  | .produce s => plausibilityFails textLen s

/-- The retry loop of `generate_tts` (lines 74-146).  `attempt` is the
Python loop index, `fuel` the number of iterations `range(max_retries)`
still has (so `attempt < max_retries - 1` is `0 < fuel` after entering
the body).  Returns the result together with the number of remote-service
invocations made.  The voice-mapping check (lines 86-92) happens inside
the body, before the `Session` is created, so a missing mapping returns
the mock result with zero remote calls. -/
def tts_loop (env : TTSEnv) (character : String) (text : List Char) :
    Nat → Nat → GenResult × Nat
  | _, 0 => (.mock character text, 0)
  | attempt, fuel + 1 =>
    match FISH_VOICE_MAPPING character with
    | none => (.mock character text, 0)
    | some _ =>
      match env.outcome attempt with
      | .raiseErr =>
        if 0 < fuel then
          ((tts_loop env character text (attempt + 1) fuel).1,
           (tts_loop env character text (attempt + 1) fuel).2 + 1)
        else (.mock character text, 1)
      | .produce size =>
        if plausibilityFails text.length size then
          if 0 < fuel then
            ((tts_loop env character text (attempt + 1) fuel).1,
             (tts_loop env character text (attempt + 1) fuel).2 + 1)
          else (.mock character text, 1)
        else
          (.remote attempt (voicesPath character ((env.uuid attempt).take 8)), 1)

/-- `generate_tts` (lines 44-146).  The Python default for `max_retries`
is 2; here it is an explicit argument.  When no key or no SDK, the mock
result is returned with the original (untruncated) text (line 65);
otherwise the text is truncated and the retry loop runs. -/
def generate_tts (env : TTSEnv) (character : String) (text : List Char)
    (maxRetries : Nat) : GenResult × Nat :=
  if !(env.apiKeyPresent && env.sdkAvailable) then (.mock character text, 0)
  else tts_loop env character (truncate200 text) 0 maxRetries

/-- Environment for one call of `generate_mock_tts`: the dash-stripped
uuid4 hex drawn at line 162, the one drawn in the `except` handler at
line 189, whether `pydub.AudioSegment` imported, and whether writing the
file (export or open/write) succeeds. -/
structure MockEnv where
  uuid1 : List Char
  uuid2 : List Char
  pydubAvailable : Bool
  writeOk : Bool

/-- Lines 170-173: `duration_ms = len(text) * 333` then
`duration_ms = max(1000, duration_ms)`. -/
def mock_duration_ms (text : List Char) : Nat :=
  max 1000 (text.length * 333)

/-- The file a mock-synthesis call leaves on disk. -/
inductive MockFile
  | silent (durationMs : Nat)
  | empty
deriving DecidableEq

/-- Observable result of `generate_mock_tts`: the returned path and the
file written (`none` when even file creation failed). -/
structure MockRun where
  path : String
  file : Option MockFile
deriving DecidableEq

/-- `generate_mock_tts` (lines 149-189): with pydub, exports silent audio
of `mock_duration_ms` milliseconds; without pydub, writes an empty
placeholder; if writing raises, the handler returns a fresh path built
from a second uuid and no file exists at it. -/
def generate_mock_tts (env : MockEnv) (character : String) (text : List Char) :
    MockRun :=
  if env.writeOk then
    if env.pydubAvailable then
      { path := voicesPath character (env.uuid1.take 8),
        file := some (.silent (mock_duration_ms text)) }
    else
      { path := voicesPath character (env.uuid1.take 8), file := some .empty }
  else
    { path := voicesPath character (env.uuid2.take 8), file := none }

/-! ## video_processor.py -/

/-- `STATIC_DIR` (line 23); the absolute base is irrelevant to the claims,
only the path structure built on top of it matters. -/
def STATIC_DIR : String := "static"

/-- Lines 186-190: a site-relative audio path (leading slash) is rewritten
to `os.path.join(STATIC_DIR, audio_path[1:])`; other paths are kept. -/
def convertAudioPath (p : String) : String :=
  if p.startsWith "/" then STATIC_DIR ++ "/" ++ p.drop 1 else p

/-- Line 199: the canonical segment order. -/
def sequence : List String := ["trump1", "zelensky", "trump2", "vance"]

/-- Environment for one `process_video` job: existence of each (converted)
audio path, success of `create_video_with_audio` per segment character,
success of the ffmpeg concat invocation, and success of the final
`shutil.rmtree` of the temp directory. -/
structure VEnv where
  audioExists : String → Bool
  muxOk : String → Bool
  concatOk : Bool
  rmtreeOk : Bool

/-- Line 208: the per-segment output file inside the job temp directory
`TEMP_DIR/remix_{remix_id}/{char}_with_audio.mp4`. -/
def segmentOutput (remixId char : String) : String :=
  STATIC_DIR ++ "/temp/remix_" ++ remixId ++ "/" ++ char ++ "_with_audio.mp4"

/-- What `process_video` wrote to the final output path. -/
inductive RemixOutput
  | concatenated (segments : List String)
  | copied (segment : String)
deriving DecidableEq

/-- Observable result of one `process_video` run: the returned dict
(`videoUrl`, optional `error`), what was written to the output path, the
segment characters passed to `create_video_with_audio` in call order, and
the fate of the job temp directory. -/
structure PVResult where
  videoUrl : String
  error : Option String
  output : Option RemixOutput
  muxAttempts : List String
  tempDirCreated : Bool
  cleanupAttempted : Bool
  tempDirRemoved : Bool
deriving DecidableEq

/-- The audio-existence check of lines 186-195: the first segment whose
(converted) audio path does not exist, in iteration order, or `none` when
all four exist. -/
def firstMissing (env : VEnv) (files : String → String) : Option String :=
  (sequence.filter fun c =>
    !env.audioExists (convertAudioPath (files c))).head?

/-- The `segment_videos` list built by the loop of lines 201-215: the
per-segment output paths of the successfully muxed segments, in canonical
order. -/
def muxedSegments (env : VEnv) (remixId : String) : List String :=
  (sequence.filter fun c => env.muxOk c).map (segmentOutput remixId)

/-- `process_video` (lines 151-258).  The temp directory is created at
line 179, before the audio-existence check, so it exists on every path.
A missing audio file raises `FileNotFoundError` (line 195), which jumps
to the outer handler at line 251: the cleanup at lines 238-241 does not
run and the returned dict carries `error` and the fallback `videoUrl`
(built from the remix id exactly like the success url).  Otherwise every
segment is muxed in canonical order, failures being skipped (line 213);
with all four segments the concat runs (falling back to copying the first
segment on concat failure, line 228); with some but not all, the first
successful segment is copied (line 233); with none, an exception is
raised (line 235), again skipping cleanup.  On the non-raising paths the
rmtree runs and its own failure is caught (lines 238-241) without
changing the result.  The audio dict iteration at line 186 is modelled in
canonical key order. -/
def process_video (env : VEnv) (remixId : String)
    (audioFiles : String → String) : PVResult :=
  let videoUrl := "/videos/remix_" ++ remixId ++ ".mp4"
  match firstMissing env audioFiles with
  | some c =>
    { videoUrl := videoUrl,
      error := some ("Missing audio file: " ++ convertAudioPath (audioFiles c)),
      output := none, muxAttempts := [],
      tempDirCreated := true, cleanupAttempted := false, tempDirRemoved := false }
  | none =>
    let segmentVideos := muxedSegments env remixId
    if segmentVideos.length = sequence.length then
      if env.concatOk then
        { videoUrl := videoUrl, error := none,
          output := some (.concatenated segmentVideos), muxAttempts := sequence,
          tempDirCreated := true, cleanupAttempted := true,
          tempDirRemoved := env.rmtreeOk }
      else
        { videoUrl := videoUrl, error := none,
          output := some (.copied segmentVideos.headI), muxAttempts := sequence,
          tempDirCreated := true, cleanupAttempted := true,
          tempDirRemoved := env.rmtreeOk }
    else if segmentVideos.isEmpty then
      { videoUrl := videoUrl,
        error := some "No video segments were successfully processed",
        output := none, muxAttempts := sequence,
        tempDirCreated := true, cleanupAttempted := false, tempDirRemoved := false }
    else
      { videoUrl := videoUrl, error := none,
        output := some (.copied segmentVideos.headI), muxAttempts := sequence,
        tempDirCreated := true, cleanupAttempted := true,
        tempDirRemoved := env.rmtreeOk }

/-- Environment for `get_media_duration`: for each path, the parsed float
from a successful `ffprobe` run, or `none` when the subprocess or the
parse fails in any way. -/
structure ProbeEnv where
  probe : String → Option ℚ

/-- `get_media_duration` (lines 41-54): the `except` clause turns every
failure into a returned `0`; the function is total. -/
def get_media_duration (env : ProbeEnv) (p : String) : ℚ :=
  match env.probe p with
  | some d => d
  | none => 0

/-- The two ffmpeg command shapes `create_video_with_audio` can build:
frame-hold extension with `tpad stop_duration` equal to the given delta
(plus `-shortest`), or stream-copy of the video with the audio attached
(plus `-shortest`). -/
inductive MuxCmd
  | extendPad (stopDuration : ℚ)
  | copyAttach
deriving DecidableEq

/-- The branch of `create_video_with_audio` (lines 70-99): extension is
chosen exactly when `audio_duration > video_duration`, with
`stop_duration` the difference. -/
def buildMuxCmd (videoDur audioDur : ℚ) : MuxCmd :=
  if videoDur < audioDur then .extendPad (audioDur - videoDur) else .copyAttach

/-- Length of the visual track of the built command: the input video
padded by the `tpad` clone duration, or the unmodified video. -/
def muxVisualDuration (videoDur audioDur : ℚ) : ℚ :=
  match buildMuxCmd videoDur audioDur with
  | .extendPad d => videoDur + d
  | .copyAttach => videoDur

/-- Duration of the muxed output: `-shortest` truncates to the shorter of
the visual track and the audio track. -/
def muxOutputDuration (videoDur audioDur : ℚ) : ℚ :=
  min (muxVisualDuration videoDur audioDur) audioDur

/-- `create_video_with_audio` (lines 56-112) probes both inputs with
`get_media_duration` and builds its command from those two values alone. -/
def create_video_with_audio_cmd (env : ProbeEnv) (video audio : String) : MuxCmd :=
  buildMuxCmd (get_media_duration env video) (get_media_duration env audio)

/-- Observable result of `concat_videos` (lines 114-149): whether it
returned `True`, the manifest lines written (in input order), and whether
the manifest file was deleted.  In the Python code `os.unlink` at line
141 runs only after `subprocess.run(check=True)` at line 135 returns, so
a failed concat jumps to the handler with the manifest still on disk. -/
structure ConcatRun where
  ok : Bool
  manifestLines : List String
  manifestRemoved : Bool
deriving DecidableEq

/-- `concat_videos`: the manifest lists `file '<abs path>'` for each input
in order; segment paths handed in by `process_video` are already
absolute, so `os.path.abspath` is the identity on them. -/
def concat_videos (concatOk : Bool) (videoPaths : List String) : ConcatRun :=
  { ok := concatOk,
    manifestLines := videoPaths.map (fun p => "file " ++ p),
    manifestRemoved := concatOk }

/-! ## Helper lemmas -/

lemma tts_loop_no_voice (env : TTSEnv) (c : String) (t : List Char)
    (hv : FISH_VOICE_MAPPING c = none) :
    ∀ fuel attempt, tts_loop env c t attempt fuel = (.mock c t, 0) := by
  intro fuel attempt
  cases fuel with
  | zero => rfl
  | succ n => simp [tts_loop, hv]

lemma tts_loop_calls_le (env : TTSEnv) (c : String) (t : List Char) :
    ∀ fuel attempt, (tts_loop env c t attempt fuel).2 ≤ fuel := by
  intro fuel
  induction fuel with
  | zero => intro attempt; simp [tts_loop]
  | succ n ih =>
    intro attempt
    simp only [tts_loop]
    cases FISH_VOICE_MAPPING c with
    | none => simp
    | some v =>
      cases env.outcome attempt with
      | raiseErr =>
        by_cases h : 0 < n
        · simpa [h] using ih (attempt + 1)
        · simp [h]
      | produce s =>
        by_cases hp : plausibilityFails t.length s
        · by_cases h : 0 < n
          · simpa [hp, h] using ih (attempt + 1)
          · simp [hp, h]
        · simp [hp]

lemma tts_loop_all_fail (env : TTSEnv) (c : String) (t : List Char) :
    ∀ fuel attempt,
      (∀ i, attempt ≤ i → i < attempt + fuel →
        attemptFails t.length (env.outcome i) = true) →
      (tts_loop env c t attempt fuel).1 = .mock c t := by
  intro fuel
  induction fuel with
  | zero => intro attempt _; simp [tts_loop]
  | succ n ih =>
    intro attempt hall
    have h0 : attemptFails t.length (env.outcome attempt) = true :=
      hall attempt le_rfl (by omega)
    simp only [tts_loop]
    cases hv : FISH_VOICE_MAPPING c with
    | none => rfl
    | some v =>
      cases ho : env.outcome attempt with
      | raiseErr =>
        by_cases h : 0 < n
        · simpa [h] using
            ih (attempt + 1) (fun i h1 h2 => hall i (by omega) (by omega))
        · simp [h]
      | produce s =>
        have hp : plausibilityFails t.length s = true := by
          rw [ho] at h0
          simpa [attemptFails] using h0
        by_cases h : 0 < n
        · simpa [hp, h] using
            ih (attempt + 1) (fun i h1 h2 => hall i (by omega) (by omega))
        · simp [hp, h]

/-! ## Claim theorems -/

/-- Claim C3: generate_tts never propagates an error to its caller: when
credentials or the SDK are absent, or the character has no voice-mapping
entry, it returns the mock-synthesis result without attempting the remote
service; when the remote path is taken, the remote service is attempted at
most max_retries times (default 2), and after the plausibility check fails
on the final attempt or after all attempts raise errors, it returns the
mock-synthesis result instead of raising.  (The embedding is total over
environments whose attempts may raise, so no error escapes; the second
component counts remote-service invocations.) -/
theorem generate_tts_total_fallback (env : TTSEnv) (character : String)
    (text : List Char) (maxRetries : Nat) :
    (env.apiKeyPresent = false ∨ env.sdkAvailable = false →
      generate_tts env character text maxRetries = (.mock character text, 0)) ∧
    (env.apiKeyPresent = true → env.sdkAvailable = true →
      FISH_VOICE_MAPPING character = none →
      generate_tts env character text maxRetries =
        (.mock character (truncate200 text), 0)) ∧
    (generate_tts env character text maxRetries).2 ≤ maxRetries ∧
    (env.apiKeyPresent = true → env.sdkAvailable = true →
      (∀ i, i < maxRetries →
        attemptFails (truncate200 text).length (env.outcome i) = true) →
      (generate_tts env character text maxRetries).1 =
        .mock character (truncate200 text)) := by
  refine ⟨?_, ?_, ?_, ?_⟩
  · intro h
    rcases h with h | h <;> simp [generate_tts, h]
  · intro h1 h2 hv
    simp [generate_tts, h1, h2, tts_loop_no_voice env character _ hv]
  · by_cases h : env.apiKeyPresent && env.sdkAvailable
    · simpa [generate_tts, h] using
        tts_loop_calls_le env character (truncate200 text) maxRetries 0
    · simp [generate_tts, h]
  · intro h1 h2 hall
    simpa [generate_tts, h1, h2] using
      tts_loop_all_fail env character (truncate200 text) maxRetries 0
        (fun i _ h => hall i (by omega))

/-- Witness for C3: with key and SDK present and every remote attempt
raising, two attempts are made and the mock result is returned. -/
theorem generate_tts_total_fallback_witness :
    (generate_tts ⟨true, true, fun _ => .raiseErr, fun _ => []⟩ "trump"
        ['h', 'i'] 2).1 = .mock "trump" (truncate200 ['h', 'i']) :=
  (generate_tts_total_fallback ⟨true, true, fun _ => .raiseErr, fun _ => []⟩
      "trump" ['h', 'i'] 2).2.2.2 rfl rfl (fun _ _ => rfl)

/-- Claim C4: on the remote path of generate_tts, a text of length at most
200 is submitted unchanged; a longer text is submitted with length exactly
200 ending in the three-character ellipsis marker. -/
theorem generate_tts_truncation (env : TTSEnv) (character : String)
    (text : List Char) (maxRetries : Nat) :
    (text.length ≤ 200 → truncate200 text = text) ∧
    (200 < text.length →
      (truncate200 text).length = 200 ∧
      (truncate200 text).drop 197 = ellipsis) ∧
    (env.apiKeyPresent = true → env.sdkAvailable = true →
      generate_tts env character text maxRetries =
        tts_loop env character (truncate200 text) 0 maxRetries) := by
  refine ⟨?_, ?_, ?_⟩
  · intro h
    simp only [truncate200]
    rw [if_neg (by omega)]
  · intro h
    simp only [truncate200]
    rw [if_pos h]
    constructor
    · simp [ellipsis]
      omega
    · have h197 : (text.take 197).length = 197 := by
        simp
        omega
      have hd := List.drop_left (text.take 197) ellipsis
      rw [h197] at hd
      exact hd
  · intro h1 h2
    simp [generate_tts, h1, h2]

/-- Witness for C4: a 201-character text is truncated to exactly 200
characters ending in the ellipsis marker. -/
theorem generate_tts_truncation_witness :
    (truncate200 (List.replicate 201 'a')).length = 200 ∧
    (truncate200 (List.replicate 201 'a')).drop 197 = ellipsis :=
  (generate_tts_truncation ⟨true, true, fun _ => .raiseErr, fun _ => []⟩
      "trump" (List.replicate 201 'a') 2).2.1
    (by rw [List.length_replicate]; omega)

/-- Counterexample for C5: the mock duration is 333 milliseconds per
character, not one third of a second per character: a six-character text
yields a 1998 ms clip, while max(1, 6/3) seconds is 2000 ms. -/
theorem mock_duration_not_exact_thirds :
    (generate_mock_tts ⟨[], [], true, true⟩ "trump"
        ['a', 'b', 'c', 'd', 'e', 'f']).file = some (.silent 1998) ∧
    ¬((1998 : ℚ) / 1000 = max 1 ((6 : ℚ) / 3)) := by
  constructor
  · rfl
  · norm_num

/-- Claim C5 (amended): when audio encoding is available the mock clip
lasts max(1000, 333·len) milliseconds, i.e. max(1, 333·len/1000) seconds;
this is monotonically non-decreasing in text length and bounded below by
one second. -/
theorem mock_duration_formula_monotone (env : MockEnv) (character : String)
    (t t1 t2 : List Char) :
    (env.writeOk = true → env.pydubAvailable = true →
      (generate_mock_tts env character t).file =
        some (.silent (mock_duration_ms t))) ∧
    (t1.length ≤ t2.length → mock_duration_ms t1 ≤ mock_duration_ms t2) ∧
    1000 ≤ mock_duration_ms t ∧
    (mock_duration_ms t : ℚ) / 1000 = max 1 ((t.length * 333 : ℚ) / 1000) := by
  refine ⟨?_, ?_, ?_, ?_⟩
  · intro h1 h2
    simp [generate_mock_tts, h1, h2]
  · intro h
    simp only [mock_duration_ms]
    exact max_le_max le_rfl (by omega)
  · simp [mock_duration_ms]
  · simp only [mock_duration_ms]
    push_cast [Nat.cast_max]
    rw [← max_div_div_right (by norm_num : (0 : ℚ) ≤ 1000)]
    norm_num

/-- Witness for C5 (amended): a 100-character text yields a silent clip of
33300 ms. -/
theorem mock_duration_formula_monotone_witness :
    (generate_mock_tts ⟨[], [], true, true⟩ "vance"
        (List.replicate 100 'x')).file =
      some (.silent (mock_duration_ms (List.replicate 100 'x'))) :=
  (mock_duration_formula_monotone ⟨[], [], true, true⟩ "vance"
      (List.replicate 100 'x') [] []).1 rfl rfl

/-- Claim C10: generate_mock_tts is total at the public interface: it
always returns a path of the shape /voices/(character)_(8-char id).mp3;
without pydub it writes an empty placeholder, and when even file creation
fails the returned path refers to no existing file.  The uuid hypotheses
hold in the source, where the dash-stripped uuid4 hex has 32 characters. -/
theorem generate_mock_tts_total_path_shape (env : MockEnv)
    (character : String) (text : List Char)
    (h1 : 8 ≤ env.uuid1.length) (h2 : 8 ≤ env.uuid2.length) :
    (∃ fileId : List Char, fileId.length = 8 ∧
      (generate_mock_tts env character text).path = voicesPath character fileId) ∧
    (env.writeOk = true → env.pydubAvailable = false →
      (generate_mock_tts env character text).file = some .empty) ∧
    (env.writeOk = false →
      (generate_mock_tts env character text).file = none) := by
  refine ⟨?_, ?_, ?_⟩
  · by_cases hw : env.writeOk
    · refine ⟨env.uuid1.take 8, ?_, ?_⟩
      · simp
        omega
      · by_cases hp : env.pydubAvailable <;> simp [generate_mock_tts, hw, hp]
    · refine ⟨env.uuid2.take 8, ?_, ?_⟩
      · simp
        omega
      · simp [generate_mock_tts, hw]
  · intro hw hp
    simp [generate_mock_tts, hw, hp]
  · intro hw
    simp [generate_mock_tts, hw]

/-- Witness for C10: with 32-character uuids, no pydub and a successful
write, the path has the required shape and the file is the empty
placeholder. -/
theorem generate_mock_tts_total_path_shape_witness :
    (∃ fileId : List Char, fileId.length = 8 ∧
      (generate_mock_tts
          ⟨List.replicate 32 'a', List.replicate 32 'b', false, true⟩
          "trump" ['h', 'i']).path = voicesPath "trump" fileId) ∧
    (generate_mock_tts
        ⟨List.replicate 32 'a', List.replicate 32 'b', false, true⟩
        "trump" ['h', 'i']).file = some .empty := by
  have h := generate_mock_tts_total_path_shape
    ⟨List.replicate 32 'a', List.replicate 32 'b', false, true⟩
    "trump" ['h', 'i'] (by simp) (by simp)
  exact ⟨h.1, h.2.1 rfl rfl⟩

lemma firstMissing_none (env : VEnv) (files : String → String) :
    firstMissing env files = none ↔
      ∀ c ∈ sequence, env.audioExists (convertAudioPath (files c)) = true := by
  rw [firstMissing, List.head?_eq_none_iff, List.filter_eq_nil_iff]
  constructor
  · intro h c hc
    simpa using h c hc
  · intro h c hc
    simp [h c hc]

lemma filter_mux_all (env : VEnv) (hmux : ∀ c ∈ sequence, env.muxOk c = true) :
    sequence.filter (fun c => env.muxOk c) = sequence :=
  List.filter_eq_self.2 (by intro a ha; simp [hmux a ha])

lemma filter_mux_of_length (env : VEnv)
    (h : (sequence.filter fun c => env.muxOk c).length = sequence.length) :
    ∀ c ∈ sequence, env.muxOk c = true := by
  have heq := (List.filter_sublist (l := sequence)).eq_of_length h
  intro c hc
  simpa using List.filter_eq_self.1 heq c hc

lemma muxedSegments_all (env : VEnv) (remixId : String)
    (hmux : ∀ c ∈ sequence, env.muxOk c = true) :
    muxedSegments env remixId = sequence.map (segmentOutput remixId) := by
  rw [muxedSegments, filter_mux_all env hmux]

lemma muxedSegments_length (env : VEnv) (remixId : String) :
    (muxedSegments env remixId).length = sequence.length ↔
      ∀ c ∈ sequence, env.muxOk c = true := by
  rw [muxedSegments, List.length_map]
  constructor
  · exact filter_mux_of_length env
  · intro h
    rw [filter_mux_all env h]

lemma muxedSegments_nil (env : VEnv) (remixId : String) :
    muxedSegments env remixId = [] ↔ ∀ c ∈ sequence, env.muxOk c = false := by
  rw [muxedSegments, List.map_eq_nil_iff, List.filter_eq_nil_iff]
  constructor
  · intro h c hc
    simpa using h c hc
  · intro h c hc
    simp [h c hc]

lemma headI_map (f : String → String) (l : List String) (h : l ≠ []) :
    (l.map f).headI = f l.headI := by
  cases l with
  | nil => exact absurd rfl h
  | cons a t => rfl

/-- Claim C1: with every required audio artifact present, process_video
muxes the four segments in canonical order; if all four mux and the
concat succeeds, the output is the concatenation in that order; if the
concat fails with all four muxed, or only some muxed, the output is a
copy of the first successfully muxed segment in canonical order; if none
muxed, the job returns an error result and no muxed output is written. -/
theorem process_video_canonical_fallback (env : VEnv) (remixId : String)
    (audioFiles : String → String)
    (hall : ∀ c ∈ sequence,
      env.audioExists (convertAudioPath (audioFiles c)) = true) :
    (process_video env remixId audioFiles).muxAttempts = sequence ∧
    ((∀ c ∈ sequence, env.muxOk c = true) → env.concatOk = true →
      (process_video env remixId audioFiles).error = none ∧
      (process_video env remixId audioFiles).output =
        some (.concatenated (sequence.map (segmentOutput remixId)))) ∧
    ((∀ c ∈ sequence, env.muxOk c = true) → env.concatOk = false →
      (process_video env remixId audioFiles).output =
        some (.copied (segmentOutput remixId "trump1"))) ∧
    ((∃ c ∈ sequence, env.muxOk c = true) →
      (∃ c ∈ sequence, env.muxOk c = false) →
      (process_video env remixId audioFiles).output =
        some (.copied (segmentOutput remixId
          ((sequence.filter fun c => env.muxOk c).headI)))) ∧
    ((∀ c ∈ sequence, env.muxOk c = false) →
      (process_video env remixId audioFiles).error.isSome = true ∧
      (process_video env remixId audioFiles).output = none) := by
  have hm : firstMissing env audioFiles = none :=
    (firstMissing_none env audioFiles).2 hall
  refine ⟨?_, ?_, ?_, ?_, ?_⟩
  · simp only [process_video, hm]
    split_ifs <;> rfl
  · intro hmux hc
    have hms := muxedSegments_all env remixId hmux
    simp only [process_video, hm, hms]
    rw [if_pos (by rw [List.length_map]), if_pos hc]
    exact ⟨rfl, rfl⟩
  · intro hmux hc
    have hms := muxedSegments_all env remixId hmux
    simp only [process_video, hm, hms]
    rw [if_pos (by rw [List.length_map]), if_neg (by simp [hc])]
    rfl
  · intro h1 h2
    have hne : (sequence.filter fun c => env.muxOk c) ≠ [] := by
      rw [Ne, List.filter_eq_nil_iff]
      push_neg
      obtain ⟨c, hc, hmc⟩ := h1
      exact ⟨c, hc, by simp [hmc]⟩
    have hlen : ¬((muxedSegments env remixId).length = sequence.length) := by
      rw [muxedSegments_length]
      intro hAll
      obtain ⟨c, hc, hmc⟩ := h2
      rw [hAll c hc] at hmc
      cases hmc
    have hmapne : muxedSegments env remixId ≠ [] := by
      rw [Ne, muxedSegments_nil]
      intro hAll
      obtain ⟨c, hc, hmc⟩ := h1
      rw [hAll c hc] at hmc
      cases hmc
    simp only [process_video, hm]
    rw [if_neg hlen, if_neg (by simpa [List.isEmpty_iff] using hmapne)]
    simp only [muxedSegments]
    rw [headI_map _ _ hne]
  · intro hmux
    have hnil : muxedSegments env remixId = [] :=
      (muxedSegments_nil env remixId).2 hmux
    simp only [process_video, hm]
    rw [if_neg (by rw [hnil]; simp [sequence]), if_pos (by rw [hnil]; rfl)]
    exact ⟨rfl, rfl⟩

/-- Witness for C1: with all artifacts present, all muxes and the concat
succeeding, the output is the four segments concatenated in canonical
order. -/
theorem process_video_canonical_fallback_witness :
    (process_video ⟨fun _ => true, fun _ => true, true, true⟩ "7"
        (fun c => "/voices/" ++ c ++ ".mp3")).muxAttempts = sequence ∧
    (process_video ⟨fun _ => true, fun _ => true, true, true⟩ "7"
        (fun c => "/voices/" ++ c ++ ".mp3")).output =
      some (.concatenated (sequence.map (segmentOutput "7"))) := by
  have h := process_video_canonical_fallback
    ⟨fun _ => true, fun _ => true, true, true⟩ "7"
    (fun c => "/voices/" ++ c ++ ".mp3") (fun c _ => rfl)
  exact ⟨h.1, (h.2.1 (fun c _ => rfl) rfl).2⟩

/-- Counterexample for C2: when the zelensky segment fails to mux while
the other three succeed, the job degrades to a copy of the trump1 segment
but the returned structure carries no error field. -/
theorem degraded_success_has_no_error_field :
    (process_video ⟨fun _ => true, fun c => c != "zelensky", true, true⟩ "1"
        (fun c => "/voices/" ++ c ++ ".mp3")).output =
      some (.copied (segmentOutput "1" "trump1")) ∧
    (process_video ⟨fun _ => true, fun c => c != "zelensky", true, true⟩ "1"
        (fun c => "/voices/" ++ c ++ ".mp3")).error = none :=
  ⟨rfl, rfl⟩

/-- Claim C2 (amended): process_video always returns a structure whose
videoUrl is built from the remix-id (the same string on success and on
failure); the error field is present exactly when the job fails outright
(a required audio artifact is missing, or no segment muxes); on degraded
success (some but not all segments mux, or concatenation fails) no error
field is returned. -/
theorem process_video_result_fields (env : VEnv) (remixId : String)
    (audioFiles : String → String) :
    (process_video env remixId audioFiles).videoUrl =
      "/videos/remix_" ++ remixId ++ ".mp4" ∧
    ((process_video env remixId audioFiles).error.isSome = true ↔
      ((∃ c ∈ sequence,
          env.audioExists (convertAudioPath (audioFiles c)) = false) ∨
       ((∀ c ∈ sequence,
          env.audioExists (convertAudioPath (audioFiles c)) = true) ∧
        ∀ c ∈ sequence, env.muxOk c = false))) := by
  cases hm : firstMissing env audioFiles with
  | some c =>
    have hex : ∃ d ∈ sequence,
        env.audioExists (convertAudioPath (audioFiles d)) = false := by
      have hne : (sequence.filter fun c =>
          !env.audioExists (convertAudioPath (audioFiles c))) ≠ [] := by
        intro h0
        rw [firstMissing, h0] at hm
        cases hm
      rw [Ne, List.filter_eq_nil_iff] at hne
      push_neg at hne
      obtain ⟨d, hd, hdp⟩ := hne
      exact ⟨d, hd, by simpa using hdp⟩
    refine ⟨by simp [process_video, hm], ?_⟩
    constructor
    · intro _
      exact Or.inl hex
    · intro _
      simp [process_video, hm]
  | none =>
    have hallE := (firstMissing_none env audioFiles).1 hm
    refine ⟨?_, ?_⟩
    · simp only [process_video, hm]
      split_ifs <;> rfl
    · by_cases hmall : ∀ c ∈ sequence, env.muxOk c = true
      · have hlen : (muxedSegments env remixId).length = sequence.length :=
          (muxedSegments_length env remixId).2 hmall
        constructor
        · intro hIs
          exfalso
          revert hIs
          simp only [process_video, hm]
          rw [if_pos hlen]
          by_cases hc : env.concatOk
          · rw [if_pos hc]
            simp
          · rw [if_neg hc]
            simp
        · rintro (⟨d, hd, hdf⟩ | ⟨-, hfall⟩)
          · rw [hallE d hd] at hdf
            cases hdf
          · have h1 := hmall "trump1" (by simp [sequence])
            have h2 := hfall "trump1" (by simp [sequence])
            rw [h1] at h2
            cases h2
      · have hlen : ¬((muxedSegments env remixId).length = sequence.length) := by
          rw [muxedSegments_length]
          exact hmall
        by_cases hnone : ∀ c ∈ sequence, env.muxOk c = false
        · have hnil : muxedSegments env remixId = [] :=
            (muxedSegments_nil env remixId).2 hnone
          constructor
          · intro _
            exact Or.inr ⟨hallE, hnone⟩
          · intro _
            simp only [process_video, hm]
            rw [if_neg hlen, if_pos (by rw [hnil]; rfl)]
            rfl
        · have hnotnil : muxedSegments env remixId ≠ [] := by
            rw [Ne, muxedSegments_nil]
            exact hnone
          constructor
          · intro hIs
            exfalso
            revert hIs
            simp only [process_video, hm]
            rw [if_neg hlen,
                if_neg (by simpa [List.isEmpty_iff] using hnotnil)]
            simp
          · rintro (⟨d, hd, hdf⟩ | ⟨-, hfall⟩)
            · rw [hallE d hd] at hdf
              cases hdf
            · exact absurd hfall hnone

/-- Claim C6: create_video_with_audio selects its behaviour solely by
comparing the two probed durations: when the probed audio duration is
strictly greater than the probed video duration it builds the frame-hold
extension command padding the visual track by exactly the difference, so
the visual length equals the audio length; otherwise it builds the
copy-without-re-encoding command whose output is truncated to the shorter
of the two inputs. -/
theorem create_video_with_audio_branch (env : ProbeEnv) (video audio : String) :
    (get_media_duration env video < get_media_duration env audio →
      create_video_with_audio_cmd env video audio =
        .extendPad (get_media_duration env audio - get_media_duration env video) ∧
      muxVisualDuration (get_media_duration env video)
          (get_media_duration env audio) = get_media_duration env audio ∧
      muxOutputDuration (get_media_duration env video)
          (get_media_duration env audio) = get_media_duration env audio) ∧
    (get_media_duration env audio ≤ get_media_duration env video →
      create_video_with_audio_cmd env video audio = .copyAttach ∧
      muxOutputDuration (get_media_duration env video)
          (get_media_duration env audio) =
        min (get_media_duration env video) (get_media_duration env audio)) := by
  constructor
  · intro h
    have hcmd : buildMuxCmd (get_media_duration env video)
        (get_media_duration env audio) =
        .extendPad (get_media_duration env audio - get_media_duration env video) := by
      rw [buildMuxCmd, if_pos h]
    have hvis : muxVisualDuration (get_media_duration env video)
        (get_media_duration env audio) = get_media_duration env audio := by
      rw [muxVisualDuration, hcmd]
      ring
    refine ⟨hcmd, hvis, ?_⟩
    rw [muxOutputDuration, hvis, min_self]
  · intro h
    have hcmd : buildMuxCmd (get_media_duration env video)
        (get_media_duration env audio) = .copyAttach := by
      rw [buildMuxCmd, if_neg (not_lt.2 h)]
    refine ⟨hcmd, ?_⟩
    rw [muxOutputDuration, muxVisualDuration, hcmd]

/-- Witness for C6: with a 2 second video and a 5 second audio, the
extension command with a 3 second pad is built. -/
theorem create_video_with_audio_branch_witness :
    create_video_with_audio_cmd
      ⟨fun q => if q = "v.mp4" then some 2 else some 5⟩ "v.mp4" "a.mp3" =
      .extendPad 3 := by
  have h := ((create_video_with_audio_branch
      ⟨fun q => if q = "v.mp4" then some 2 else some 5⟩ "v.mp4" "a.mp3").1
      (by norm_num [show get_media_duration
            ⟨fun q => if q = "v.mp4" then some 2 else some 5⟩ "v.mp4" = 2 from rfl,
          show get_media_duration
            ⟨fun q => if q = "v.mp4" then some 2 else some 5⟩ "a.mp3" = 5 from rfl])).1
  rw [show get_media_duration
        ⟨fun q => if q = "v.mp4" then some 2 else some 5⟩ "a.mp3" = 5 from rfl,
      show get_media_duration
        ⟨fun q => if q = "v.mp4" then some 2 else some 5⟩ "v.mp4" = 2 from rfl] at h
  norm_num at h
  exact h

/-- Counterexample for C7: with a missing audio artifact the job takes
the error exit and the temp directory, although created, is never
removed: the cleanup of lines 238-241 sits inside the try block after the
point where FileNotFoundError was raised, so the outer handler returns
without running it. -/
theorem temp_dir_not_removed_on_error :
    (process_video ⟨fun _ => false, fun _ => true, true, true⟩ "1"
        (fun c => "/voices/" ++ c ++ ".mp3")).tempDirCreated = true ∧
    (process_video ⟨fun _ => false, fun _ => true, true, true⟩ "1"
        (fun c => "/voices/" ++ c ++ ".mp3")).tempDirRemoved = false ∧
    (process_video ⟨fun _ => false, fun _ => true, true, true⟩ "1"
        (fun c => "/voices/" ++ c ++ ".mp3")).error.isSome = true :=
  ⟨rfl, rfl, rfl⟩

/-- Claim C7 (amended): the job temp directory is created on every run,
but its removal is attempted only on the non-raising exits (full and
degraded success): exactly when every audio artifact exists and at least
one segment muxes.  On those exits it is removed iff the rmtree call
succeeds, and an rmtree failure does not change the returned videoUrl,
error or output.  On the error exits (missing audio, zero segments) the
directory is not removed. -/
theorem temp_dir_cleanup_on_success (env : VEnv) (remixId : String)
    (audioFiles : String → String) :
    (process_video env remixId audioFiles).tempDirCreated = true ∧
    ((process_video env remixId audioFiles).cleanupAttempted = true ↔
      ((∀ c ∈ sequence,
          env.audioExists (convertAudioPath (audioFiles c)) = true) ∧
       ∃ c ∈ sequence, env.muxOk c = true)) ∧
    (process_video env remixId audioFiles).tempDirRemoved =
      ((process_video env remixId audioFiles).cleanupAttempted &&
        env.rmtreeOk) ∧
    (process_video { env with rmtreeOk := true } remixId audioFiles).videoUrl =
      (process_video { env with rmtreeOk := false } remixId audioFiles).videoUrl ∧
    (process_video { env with rmtreeOk := true } remixId audioFiles).error =
      (process_video { env with rmtreeOk := false } remixId audioFiles).error ∧
    (process_video { env with rmtreeOk := true } remixId audioFiles).output =
      (process_video { env with rmtreeOk := false } remixId audioFiles).output := by
  have hframe : ∀ b : Bool, firstMissing { env with rmtreeOk := b } audioFiles =
      firstMissing env audioFiles := fun b => rfl
  have hseg : ∀ b : Bool, muxedSegments { env with rmtreeOk := b } remixId =
      muxedSegments env remixId := fun b => rfl
  refine ⟨?_, ?_, ?_, ?_⟩
  · cases hm : firstMissing env audioFiles with
    | some c => simp [process_video, hm]
    | none =>
      simp only [process_video, hm]
      split_ifs <;> rfl
  · cases hm : firstMissing env audioFiles with
    | some c =>
      have hne : ¬∀ d ∈ sequence,
          env.audioExists (convertAudioPath (audioFiles d)) = true := by
        intro hall
        rw [(firstMissing_none env audioFiles).2 hall] at hm
        cases hm
      simp only [process_video, hm]
      constructor
      · intro h
        cases h
      · rintro ⟨hall, -⟩
        exact absurd hall hne
    | none =>
      have hallE := (firstMissing_none env audioFiles).1 hm
      by_cases hnone : ∀ c ∈ sequence, env.muxOk c = false
      · have hnil : muxedSegments env remixId = [] :=
          (muxedSegments_nil env remixId).2 hnone
        simp only [process_video, hm]
        rw [if_neg (by rw [hnil]; simp [sequence]), if_pos (by rw [hnil]; rfl)]
        constructor
        · intro h
          cases h
        · rintro ⟨-, c, hc, hmc⟩
          rw [hnone c hc] at hmc
          cases hmc
      · have hsome : ∃ c ∈ sequence, env.muxOk c = true := by
          have hnone2 := hnone
          push_neg at hnone2
          obtain ⟨c, hc, hmc⟩ := hnone2
          exact ⟨c, hc, by simpa using hmc⟩
        simp only [process_video, hm]
        have hnotnil : muxedSegments env remixId ≠ [] := by
          rw [Ne, muxedSegments_nil]
          exact hnone
        by_cases hlen : (muxedSegments env remixId).length = sequence.length
        · rw [if_pos hlen]
          by_cases hc : env.concatOk
          · rw [if_pos hc]
            exact iff_of_true rfl ⟨hallE, hsome⟩
          · rw [if_neg hc]
            exact iff_of_true rfl ⟨hallE, hsome⟩
        · rw [if_neg hlen,
              if_neg (by simpa [List.isEmpty_iff] using hnotnil)]
          exact iff_of_true rfl ⟨hallE, hsome⟩
  · cases hm : firstMissing env audioFiles with
    | some c => simp [process_video, hm]
    | none =>
      simp only [process_video, hm]
      split_ifs <;> simp
  · cases hm : firstMissing env audioFiles with
    | some c =>
      refine ⟨?_, ?_, ?_⟩ <;> simp only [process_video, hframe, hm]
    | none =>
      simp only [process_video, hframe, hseg, hm]
      split_ifs <;> exact ⟨rfl, rfl, rfl⟩

/-- Counterexample for C8: when the ffmpeg concat invocation fails,
concat_videos returns False with the manifest file still on disk: the
`os.unlink` at line 141 is only reached after a successful
`subprocess.run`, and the `except` handlers do not delete the file. -/
theorem manifest_kept_on_failure :
    (concat_videos false ["a.mp4", "b.mp4"]).ok = false ∧
    (concat_videos false ["a.mp4", "b.mp4"]).manifestRemoved = false :=
  ⟨rfl, rfl⟩

/-- Claim C8 (amended): the manifest lists the segment paths in input
order, and it is removed after use exactly when the concatenation
succeeds; on failure it is left behind. -/
theorem manifest_removed_iff_success (concatOk : Bool)
    (videoPaths : List String) :
    ((concat_videos concatOk videoPaths).manifestRemoved = true ↔
      (concat_videos concatOk videoPaths).ok = true) ∧
    (concat_videos concatOk videoPaths).manifestLines =
      videoPaths.map (fun p => "file " ++ p) := by
  cases concatOk <;> exact ⟨Iff.rfl, rfl⟩

/-- Claim C9: get_media_duration is total (the embedding handles every
probe outcome, mirroring the catch-all except clause) and returns 0
whenever the probe fails; the returned value is non-negative whenever the
probe tool only reports non-negative durations, which holds of ffprobe
container durations. -/
theorem get_media_duration_nonneg_total (env : ProbeEnv) (p : String)
    (hpos : ∀ q d, env.probe q = some d → 0 ≤ d) :
    0 ≤ get_media_duration env p ∧
    (env.probe p = none → get_media_duration env p = 0) := by
  constructor
  · rw [get_media_duration]
    cases hq : env.probe p with
    | none => exact le_refl 0
    | some d => exact hpos p d hq
  · intro h
    rw [get_media_duration, h]

/-- Witness for C9: a probe that always fails yields duration 0, which is
non-negative. -/
theorem get_media_duration_nonneg_total_witness :
    0 ≤ get_media_duration ⟨fun _ => none⟩ "clip.mp4" ∧
    (ProbeEnv.probe ⟨fun _ => none⟩ "clip.mp4" = none →
      get_media_duration ⟨fun _ => none⟩ "clip.mp4" = 0) :=
  get_media_duration_nonneg_total ⟨fun _ => none⟩ "clip.mp4"
    (fun q d h => by cases h)

end Remix
